import Mathlib

/-!
# Placement handling of `simtk::FeatureRep`

A shallow embedding of `src/MultibodyModeling/FeatureRep.h` and the properties
of its placement operations.

Layout of the embedding:

* `FeatureRep` is the object state the header declares: the handle and name
  passed on to `SubsystemRep`, and the private `placement` pointer.
* A `const PlacementSlot*` is an address (`SlotPtr`, `0` is the null pointer)
  into a slot store; a `World` is the slot store together with one feature.
* Member functions are written in state-passing style: each returns its result
  paired with the `World` it leaves behind, so that "does not modify" is a
  statement about the returned `World`. A thrown exception is `Except.error`.
* The types of `Placement.h` and `Feature.h`, and the member functions that the
  header only declares (`place`, `replace`, the six `useFeatureAs...Placement`),
  are not part of the header; they are modelled from the specification and
  marked as such.
-/

namespace simtk

/-! ## Collaborating types (declared in headers outside `FeatureRep.h`) -/

/-- Modelled from the spec: the `PlacementType` enumeration of `Placement.h` is
missing; the spec enumerates six placement categories (real, 3-vector, station,
direction, orientation, frame). -/
inductive PlacementType where
  | real
  | vec3
  | station
  | direction
  | orientation
  | frame
  deriving DecidableEq, Repr

/-- Identity of a `Feature` handle (`Feature.h`); only equality of features is
ever used. -/
abbrev FeatureId := Nat

/-- Identity of a `Subsystem`, used for the owner of a placement slot. -/
abbrev SubsystemId := Nat

/-- Modelled from the spec: the class `PlacementRep` of `PlacementRep.h` is
missing. The spec gives a placement representation one observable: the set of
features its value reads, directly or through nested sub-expressions. -/
structure PlacementRep where
  reads : List FeatureId
  deriving DecidableEq, Repr

/-- Modelled from the spec: `PlacementRep::dependsOn` is missing; "does this
expression's value depend, directly or indirectly, on a given feature". -/
def PlacementRep.dependsOn (r : PlacementRep) (f : FeatureId) : Bool :=
  r.reads.contains f

/-- Modelled from the spec: the handle class `Placement` of `Placement.h` is
missing; "a type-tagged handle wrapping one placement representation; may be
empty (no representation) to signal rejection". -/
structure Placement where
  tag : PlacementType
  rep : Option PlacementRep
  deriving DecidableEq, Repr

/-- Modelled from the spec: `Placement::hasRep` is missing; a placement value is
empty when it wraps no representation. -/
def Placement.hasRep (p : Placement) : Bool :=
  p.rep.isSome

/-- Modelled from the spec: `Placement::dependsOn` is missing; the dependency
query of the wrapped representation, and `false` for an empty value. -/
def Placement.dependsOn (p : Placement) (f : FeatureId) : Bool :=
  match p.rep with
  | none => false
  | some r => r.dependsOn f

/-- A typed placement handle whose representation has not been set (the
"shell" handed to the adaptation operations). -/
def Placement.shell (t : PlacementType) : Placement :=
  { tag := t, rep := none }

/-- Modelled from the spec: the class `PlacementSlot` of `Placement.h` is
missing; "an owned storage location holding exactly one placement value on
behalf of a feature", with a single owner. -/
structure PlacementSlot where
  owner : SubsystemId
  placement : Placement
  deriving DecidableEq, Repr

/-- Modelled from the spec: `PlacementSlot::getPlacement` is missing; the
placement value the slot holds. -/
def PlacementSlot.getPlacement (s : PlacementSlot) : Placement :=
  s.placement

/-! ## Memory and failures -/

/-- A `const PlacementSlot*`: `0` is the null pointer, `n + 1` addresses cell
`n` of the slot store. -/
abbrev SlotPtr := Nat

/-- The slot store: the live `PlacementSlot` objects, by address. -/
abbrev SlotStore := List PlacementSlot

/-- The slot a pointer addresses, if it addresses a live one. -/
def deref (slots : SlotStore) (p : SlotPtr) : Option PlacementSlot :=
  match p with
  | 0 => none
  | n + 1 => slots.get? n

/-- Outcomes other than a normal return.

* `repLevelException msg` is `SIMTK_THROW1(Exception::RepLevelException, msg)`.
* `invalidSlotAccess` stands for reading through a non-null pointer that
  addresses no live slot. The source gives that no defined result; it is kept
  apart so that no statement about a defined result can hold of it.
* `incompatiblePlacement` and `preconditionViolated` belong to the operations
  modelled from the spec (`place`, `replace`). -/
inductive Failure where
  | repLevelException (msg : String)
  | invalidSlotAccess
  | incompatiblePlacement
  | preconditionViolated
  deriving DecidableEq, Repr

/-- The failure `getPlacementSlot` throws on an unplaced feature. -/
def noPlacement : Failure :=
  Failure.repLevelException "Feature has no placement"

/-! ## `FeatureRep` -/

/-- The data members of a `FeatureRep`: what its constructor hands to
`SubsystemRep(p, nm)`, and the private member
`const PlacementSlot* placement`. -/
structure FeatureRep where
  myHandle : FeatureId
  name : String
  placement : SlotPtr
  deriving DecidableEq, Repr

/-- The constructor `FeatureRep(Feature& p, const std::string& nm)
  : SubsystemRep(p,nm), placement(0) { }`. -/
def FeatureRep.new (p : FeatureId) (nm : String) : FeatureRep :=
  { myHandle := p, name := nm, placement := 0 }

/-- The pure virtual members of `FeatureRep` that the placement operations
consult; a concrete feature kind supplies them. -/
structure FeatureKind where
  getRequiredPlacementType : PlacementType
  getFeatureTypeName : String
  convertToRequiredPlacementType : Placement → Placement

/-- One feature together with the slot store its pointer refers into. -/
structure World where
  slots : SlotStore
  feature : FeatureRep
  deriving DecidableEq, Repr

/-- Source: `bool hasPlacement() const {return placement != 0;}` -/
def hasPlacement (w : World) : Bool × World :=
  (w.feature.placement != 0, w)

/-- Source: `const PlacementSlot& getPlacementSlot() const`: throws when the pointer is
null, otherwise returns the reference `*placement`, that is, the address the
pointer holds. -/
def getPlacementSlot (w : World) : Except Failure SlotPtr × World :=
  if w.feature.placement = 0 then
    (Except.error noPlacement, w)
  else
    (Except.ok w.feature.placement, w)

/-- Source: `const Placement& getPlacement() const
  { return getPlacementSlot().getPlacement(); }` -/
def getPlacement (w : World) : Except Failure Placement × World :=
  match getPlacementSlot w with
  | (Except.error e, w1) => (Except.error e, w1)
  | (Except.ok a, w1) =>
    match deref w1.slots a with
    | none => (Except.error Failure.invalidSlotAccess, w1)
    | some s => (Except.ok s.getPlacement, w1)

/-- Source: `PlacementSlot& updPlacementSlot()
  { return const_cast<PlacementSlot&>(getPlacementSlot()); }` -/
def updPlacementSlot (w : World) : Except Failure SlotPtr × World :=
  getPlacementSlot w

/-- Source: `void clearPlacementSlot() { placement=0; }` -/
def clearPlacementSlot (w : World) : World :=
  { w with feature := { w.feature with placement := 0 } }

/-- Source: `bool dependsOn(const Feature& f) const
  { return placement && placement->getPlacement().dependsOn(f); }` -/
def dependsOn (w : World) (f : FeatureId) : Except Failure Bool × World :=
  if w.feature.placement = 0 then
    (Except.ok false, w)
  else
    match deref w.slots w.feature.placement with
    | none => (Except.error Failure.invalidSlotAccess, w)
    | some s => (Except.ok (s.getPlacement.dependsOn f), w)

/-- Source: `virtual bool canPlaceOnFeatureLike(const Feature&) const {return false;}`
(the body in `FeatureRep`). -/
def canPlaceOnFeatureLike (w : World) (_f : FeatureId) : Bool × World :=
  (false, w)

/-- Source: `virtual bool isRequiredPlacementType(const Placement&) const
  {return false;}` (the body in `FeatureRep`). -/
def isRequiredPlacementType (w : World) (_p : Placement) : Bool × World :=
  (false, w)

/-- Source: `virtual bool canConvertToRequiredPlacementType(const Placement&) const
  {return false;}` (the body in `FeatureRep`). -/
def canConvertToRequiredPlacementType (w : World) (_p : Placement) : Bool × World :=
  (false, w)

/-! ## Member functions declared in `FeatureRep.h` and defined elsewhere -/

/-- Modelled from the spec: the body of `FeatureRep::useFeatureAsRealPlacement`
is missing (the header declares it). "For each of the six placement categories
the core exposes one adaptation operation, default-denying (returns no
representation)." The result is the returned `PlacementRep*` (`none` is the
null pointer), the handle that was passed by reference, and the feature. -/
def useFeatureAsRealPlacement (w : World) (h : Placement) :
    Option PlacementRep × Placement × World :=
  (none, h, w)

/-- Modelled from the spec: the body of `FeatureRep::useFeatureAsVec3Placement`
is missing; default-denying, as `useFeatureAsRealPlacement`. -/
def useFeatureAsVec3Placement (w : World) (h : Placement) :
    Option PlacementRep × Placement × World :=
  (none, h, w)

/-- Modelled from the spec: the body of
`FeatureRep::useFeatureAsStationPlacement` is missing; default-denying. -/
def useFeatureAsStationPlacement (w : World) (h : Placement) :
    Option PlacementRep × Placement × World :=
  (none, h, w)

/-- Modelled from the spec: the body of
`FeatureRep::useFeatureAsDirectionPlacement` is missing; default-denying. -/
def useFeatureAsDirectionPlacement (w : World) (h : Placement) :
    Option PlacementRep × Placement × World :=
  (none, h, w)

/-- Modelled from the spec: the body of
`FeatureRep::useFeatureAsOrientationPlacement` is missing; default-denying. -/
def useFeatureAsOrientationPlacement (w : World) (h : Placement) :
    Option PlacementRep × Placement × World :=
  (none, h, w)

/-- Modelled from the spec: the body of `FeatureRep::useFeatureAsFramePlacement`
is missing; default-denying. -/
def useFeatureAsFramePlacement (w : World) (h : Placement) :
    Option PlacementRep × Placement × World :=
  (none, h, w)

/-- An adaptation operation denies: it returns no representation, and neither
the handle it was given nor the feature is changed. -/
def Denies (op : World → Placement → Option PlacementRep × Placement × World) : Prop :=
  ∀ (w : World) (h : Placement),
    (op w h).1 = none ∧ (op w h).2.1 = h ∧ (op w h).2.2 = w

/-- Modelled from the spec: the validation shared by `place` and `replace`
("try direct type, else try conversion, else reject"). A value whose type tag
is the required type is used as it is; any other value is handed to
`convertToRequiredPlacementType`, and an empty result means rejection. -/
def acceptablePlacement (k : FeatureKind) (p : Placement) : Option Placement :=
  if p.tag = k.getRequiredPlacementType then
    some p
  else
    let q := k.convertToRequiredPlacementType p
    if q.hasRep then some q else none

/-- Modelled from the spec: the body of `FeatureRep::place` is missing.
"Preconditions: feature currently unplaced, value is type-compatible (directly
or via conversion). Effect: installs a new slot owned per the ownership
invariant, commits the converted value. Error: fails with a no compatible
placement kind if type-incompatible and non-convertible; state unchanged on
failure." The owner is an argument, because choosing it walks the subsystem
tree, which lies outside the header. A call on a placed feature breaks the
precondition; the model reports it as a failure and changes nothing. -/
def place (k : FeatureKind) (owner : SubsystemId) (w : World) (p : Placement) :
    Except Failure Unit × World :=
  if (hasPlacement w).1 then
    (Except.error Failure.preconditionViolated, w)
  else
    match acceptablePlacement k p with
    | none => (Except.error Failure.incompatiblePlacement, w)
    | some q =>
      (Except.ok (),
        { slots := w.slots ++ [{ owner := owner, placement := q }],
          feature := { w.feature with placement := w.slots.length + 1 } })

/-- Modelled from the spec: the body of `FeatureRep::replace` is missing.
"Preconditions: feature currently placed. Effect: validates the new value
exactly as in place, then atomically swaps the slot's value; the old value is
released only after the new one is validated, so a failed replace leaves the
prior placement intact." A call on an unplaced feature breaks the
precondition; the model reports it as a failure and changes nothing. -/
def replace (k : FeatureKind) (w : World) (p : Placement) :
    Except Failure Unit × World :=
  if (hasPlacement w).1 then
    match acceptablePlacement k p with
    | none => (Except.error Failure.incompatiblePlacement, w)
    | some q =>
      match deref w.slots w.feature.placement with
      | none => (Except.error Failure.invalidSlotAccess, w)
      | some s =>
        (Except.ok (),
          { w with slots := w.slots.set (w.feature.placement - 1) { s with placement := q } })
  else
    (Except.error Failure.preconditionViolated, w)

/-! ## Concrete features used as examples -/

/-- A station-like feature kind: it requires a station placement and accepts a
frame placement by taking over its representation (the frame's origin). -/
def stationKind : FeatureKind :=
  { getRequiredPlacementType := PlacementType.station
    getFeatureTypeName := "Station"
    convertToRequiredPlacementType := fun p =>
      if p.tag = PlacementType.frame then
        { tag := PlacementType.station, rep := p.rep }
      else
        { tag := PlacementType.station, rep := none } }

/-- A station placement reading features 7 and 9. -/
def stationValue : Placement :=
  { tag := PlacementType.station, rep := some { reads := [7, 9] } }

/-- A frame placement reading feature 4. -/
def frameValue : Placement :=
  { tag := PlacementType.frame, rep := some { reads := [4] } }

/-- A real placement reading nothing. -/
def realValue : Placement :=
  { tag := PlacementType.real, rep := some { reads := [] } }

/-- A feature placed by the second of two slots. -/
def placedWorld : World :=
  { slots := [{ owner := 1, placement := frameValue }, { owner := 2, placement := stationValue }]
    feature := { myHandle := 3, name := "tip", placement := 2 } }

/-- The same store with a feature that has no placement. -/
def unplacedWorld : World :=
  { slots := placedWorld.slots, feature := FeatureRep.new 3 "tip" }

/-- The state right after construction: any slot store, and the feature the
constructor builds from a handle and a name. -/
def freshWorld (slots : SlotStore) (p : FeatureId) (nm : String) : World :=
  { slots := slots, feature := FeatureRep.new p nm }

/-! ## Auxiliary facts -/

theorem deref_append_new (slots : SlotStore) (s : PlacementSlot) :
    deref (slots ++ [s]) (slots.length + 1) = some s := by
  simp [deref]

theorem deref_some_ne_zero {slots : SlotStore} {p : SlotPtr} {s : PlacementSlot}
    (h : deref slots p = some s) : p ≠ 0 := by
  intro hp
  subst hp
  simp [deref] at h

theorem hasPlacement_false_iff (w : World) :
    (hasPlacement w).1 = false ↔ w.feature.placement = 0 := by
  simp [hasPlacement]

theorem acceptablePlacement_none {k : FeatureKind} {p : Placement}
    (ht : p.tag ≠ k.getRequiredPlacementType)
    (hc : (k.convertToRequiredPlacementType p).hasRep = false) :
    acceptablePlacement k p = none := by
  simp [acceptablePlacement, ht, hc]

/-! ## The placement queries -/

/-- C1: `getPlacementSlot()`, and with it `getPlacement()` and
`updPlacementSlot()`, fails with "Feature has no placement" exactly when
`hasPlacement()` is false (and `getPlacementSlot()` fails in no other way);
when `hasPlacement()` is true, `getPlacementSlot()` and `updPlacementSlot()`
return the slot the feature references, and `getPlacement()` returns the
placement value that slot holds. -/
theorem getPlacementSlot_fails_iff_unplaced (w : World) :
    ((getPlacementSlot w).1 = Except.error noPlacement ↔ (hasPlacement w).1 = false) ∧
    ((∃ e, (getPlacementSlot w).1 = Except.error e) ↔ (hasPlacement w).1 = false) ∧
    ((getPlacement w).1 = Except.error noPlacement ↔ (hasPlacement w).1 = false) ∧
    ((updPlacementSlot w).1 = Except.error noPlacement ↔ (hasPlacement w).1 = false) ∧
    ((hasPlacement w).1 = true →
      (getPlacementSlot w).1 = Except.ok w.feature.placement ∧
      (updPlacementSlot w).1 = Except.ok w.feature.placement ∧
      ∀ s, deref w.slots w.feature.placement = some s →
        (getPlacement w).1 = Except.ok s.getPlacement) := by
  by_cases h : w.feature.placement = 0
  · simp [getPlacementSlot, getPlacement, updPlacementSlot, hasPlacement, h]
  · refine ⟨?_, ?_, ?_, ?_, ?_⟩
    · simp [getPlacementSlot, hasPlacement, h]
    · simp [getPlacementSlot, hasPlacement, h]
    · simp only [getPlacement, getPlacementSlot, hasPlacement, h, if_false]
      cases hd : deref w.slots w.feature.placement <;> simp [noPlacement, h]
    · simp [updPlacementSlot, getPlacementSlot, hasPlacement, h]
    · intro _
      refine ⟨?_, ?_, ?_⟩
      · simp [getPlacementSlot, h]
      · simp [updPlacementSlot, getPlacementSlot, h]
      · intro s hs
        simp [getPlacement, getPlacementSlot, h, hs]

/-- C1 at a concrete placed feature: the queries return its slot and the value
in it. -/
theorem getPlacementSlot_fails_iff_unplaced_witness :
    (hasPlacement placedWorld).1 = true ∧
    (getPlacementSlot placedWorld).1 = Except.ok 2 ∧
    (getPlacement placedWorld).1 = Except.ok stationValue :=
  ⟨rfl,
    ((getPlacementSlot_fails_iff_unplaced placedWorld).2.2.2.2 rfl).1,
    ((getPlacementSlot_fails_iff_unplaced placedWorld).2.2.2.2 rfl).2.2
      { owner := 2, placement := stationValue } rfl⟩

/-- C2: `A.dependsOn(f)` is true exactly when `A` is placed and the placement
value held in the slot `A` references reports `dependsOn(f)`; for a placed `A`
it returns what that value reports; it is false for every `f` when `A` is
unplaced; and it never raises the "Feature has no placement" failure. -/
theorem dependsOn_iff_placed_and_value_depends (w : World) (f : FeatureId) :
    ((dependsOn w f).1 = Except.ok true ↔
      ((hasPlacement w).1 = true ∧
        ∃ s, deref w.slots w.feature.placement = some s ∧
          s.getPlacement.dependsOn f = true)) ∧
    (∀ s, deref w.slots w.feature.placement = some s →
      (dependsOn w f).1 = Except.ok (s.getPlacement.dependsOn f)) ∧
    ((hasPlacement w).1 = false → (dependsOn w f).1 = Except.ok false) ∧
    (dependsOn w f).1 ≠ Except.error noPlacement := by
  by_cases h : w.feature.placement = 0
  · simp [dependsOn, hasPlacement, h, deref]
  · cases hd : deref w.slots w.feature.placement with
    | none => simp [dependsOn, hasPlacement, h, hd, noPlacement]
    | some s => simp [dependsOn, hasPlacement, h, hd]

/-- C2 at concrete features: the placed example depends on feature 7, which its
placement value reads, and not on feature 4; the unplaced one depends on
nothing. -/
theorem dependsOn_iff_placed_and_value_depends_witness :
    (dependsOn placedWorld 7).1 = Except.ok true ∧
    (dependsOn placedWorld 4).1 = Except.ok false ∧
    (dependsOn unplacedWorld 7).1 = Except.ok false :=
  ⟨(dependsOn_iff_placed_and_value_depends placedWorld 7).2.1
      { owner := 2, placement := stationValue } rfl,
    (dependsOn_iff_placed_and_value_depends placedWorld 4).2.1
      { owner := 2, placement := stationValue } rfl,
    (dependsOn_iff_placed_and_value_depends unplacedWorld 7).2.2.1 rfl⟩

/-! ## Type compatibility -/

/-- C3, as stated, fails: a station value offered to a feature whose required
placement type is station has a matching type tag, and the
`isRequiredPlacementType` of `FeatureRep` still answers false. -/
theorem isRequiredPlacementType_rejects_matching_tag :
    ¬ ((isRequiredPlacementType unplacedWorld stationValue).1 = true ↔
        stationValue.tag = stationKind.getRequiredPlacementType) := by
  simp [isRequiredPlacementType, stationValue, stationKind]

/-- C3, amended: the `isRequiredPlacementType` that `FeatureRep` defines answers
false for every feature and every placement value, whatever the value's type
tag and the feature's required type, and changes nothing; so it answers true
only for a value whose tag is the required type, and not for all of those. -/
theorem isRequiredPlacementType_base_false (k : FeatureKind) (w : World) (v : Placement) :
    (isRequiredPlacementType w v).1 = false ∧
    (isRequiredPlacementType w v).2 = w ∧
    ((isRequiredPlacementType w v).1 = true → v.tag = k.getRequiredPlacementType) := by
  simp [isRequiredPlacementType]

/-! ## Clearing the reference -/

/-- C4: `clearPlacementSlot()` leaves the feature unplaced and changes nothing
else: the slot store is the same, so the slot that was referenced is still
there with the value it held, and the feature's handle and name are the
same. -/
theorem clearPlacementSlot_only_clears_reference (w : World) :
    (hasPlacement (clearPlacementSlot w)).1 = false ∧
    (clearPlacementSlot w).slots = w.slots ∧
    deref (clearPlacementSlot w).slots w.feature.placement
      = deref w.slots w.feature.placement ∧
    (clearPlacementSlot w).feature.myHandle = w.feature.myHandle ∧
    (clearPlacementSlot w).feature.name = w.feature.name := by
  simp [clearPlacementSlot, hasPlacement]

/-! ## Feature-as-placement adaptation -/

/-- C5: each of the six adaptation operations of `FeatureRep` returns no
representation for every feature and every handle, and leaves the handle and
the feature as they were; a shell, whose representation is unset, still has it
unset afterwards. -/
theorem useFeatureAs_default_denies :
    (Denies useFeatureAsRealPlacement ∧
      Denies useFeatureAsVec3Placement ∧
      Denies useFeatureAsStationPlacement ∧
      Denies useFeatureAsDirectionPlacement ∧
      Denies useFeatureAsOrientationPlacement ∧
      Denies useFeatureAsFramePlacement) ∧
    ∀ (w : World) (t : PlacementType),
      (useFeatureAsRealPlacement w (Placement.shell t)).2.1.rep = none ∧
      (useFeatureAsVec3Placement w (Placement.shell t)).2.1.rep = none ∧
      (useFeatureAsStationPlacement w (Placement.shell t)).2.1.rep = none ∧
      (useFeatureAsDirectionPlacement w (Placement.shell t)).2.1.rep = none ∧
      (useFeatureAsOrientationPlacement w (Placement.shell t)).2.1.rep = none ∧
      (useFeatureAsFramePlacement w (Placement.shell t)).2.1.rep = none := by
  refine ⟨⟨?_, ?_, ?_, ?_, ?_, ?_⟩, ?_⟩
  · intro w h; exact ⟨rfl, rfl, rfl⟩
  · intro w h; exact ⟨rfl, rfl, rfl⟩
  · intro w h; exact ⟨rfl, rfl, rfl⟩
  · intro w h; exact ⟨rfl, rfl, rfl⟩
  · intro w h; exact ⟨rfl, rfl, rfl⟩
  · intro w h; exact ⟨rfl, rfl, rfl⟩
  · intro w t; exact ⟨rfl, rfl, rfl, rfl, rfl, rfl⟩

/-! ## Placing and replacing -/

/-- C6: for an unplaced feature and a value that is of the required type, or
that `convertToRequiredPlacementType` turns into a non-empty value of the
required type, `place` succeeds; afterwards `hasPlacement()` is true and
`getPlacement()` succeeds with the accepted value, whose type tag is the
feature's required placement type. -/
theorem place_then_getPlacement (k : FeatureKind) (owner : SubsystemId) (w : World)
    (v : Placement)
    (hun : (hasPlacement w).1 = false)
    (hv : v.tag = k.getRequiredPlacementType ∨
      ((k.convertToRequiredPlacementType v).hasRep = true ∧
        (k.convertToRequiredPlacementType v).tag = k.getRequiredPlacementType)) :
    (place k owner w v).1 = Except.ok () ∧
    (hasPlacement (place k owner w v).2).1 = true ∧
    ∃ q, acceptablePlacement k v = some q ∧
      (getPlacement (place k owner w v).2).1 = Except.ok q ∧
      q.tag = k.getRequiredPlacementType := by
  have hacc : ∃ q, acceptablePlacement k v = some q ∧ q.tag = k.getRequiredPlacementType := by
    by_cases ht : v.tag = k.getRequiredPlacementType
    · exact ⟨v, by simp [acceptablePlacement, ht], ht⟩
    · rcases hv with hv | ⟨hr, hq⟩
      · exact absurd hv ht
      · exact ⟨k.convertToRequiredPlacementType v, by simp [acceptablePlacement, ht, hr], hq⟩
  obtain ⟨q, hq, hqt⟩ := hacc
  have hp : place k owner w v =
      (Except.ok (),
        { slots := w.slots ++ [{ owner := owner, placement := q }],
          feature := { w.feature with placement := w.slots.length + 1 } }) := by
    simp [place, hun, hq]
  refine ⟨by rw [hp], ?_, q, hq, ?_, hqt⟩
  · rw [hp]
    simp [hasPlacement]
  · rw [hp]
    simp [getPlacement, getPlacementSlot, deref_append_new, PlacementSlot.getPlacement]

/-- C6 at a concrete input: a frame value placed on an unplaced station
feature. -/
theorem place_then_getPlacement_witness :
    (hasPlacement unplacedWorld).1 = false ∧
    (place stationKind 5 unplacedWorld frameValue).1 = Except.ok () ∧
    (hasPlacement (place stationKind 5 unplacedWorld frameValue).2).1 = true ∧
    ∃ q, acceptablePlacement stationKind frameValue = some q ∧
      (getPlacement (place stationKind 5 unplacedWorld frameValue).2).1 = Except.ok q ∧
      q.tag = stationKind.getRequiredPlacementType :=
  ⟨rfl, place_then_getPlacement stationKind 5 unplacedWorld frameValue rfl
    (Or.inr ⟨rfl, rfl⟩)⟩

/-- C7: for an unplaced feature and a value that is not of the required type
and that `convertToRequiredPlacementType` turns into an empty placement, `place`
fails and leaves the state as it was; `hasPlacement()` is still false. -/
theorem place_rejects_incompatible (k : FeatureKind) (owner : SubsystemId) (w : World)
    (v : Placement)
    (hun : (hasPlacement w).1 = false)
    (ht : v.tag ≠ k.getRequiredPlacementType)
    (hc : (k.convertToRequiredPlacementType v).hasRep = false) :
    (place k owner w v).1 = Except.error Failure.incompatiblePlacement ∧
    (place k owner w v).2 = w ∧
    (hasPlacement (place k owner w v).2).1 = false := by
  have hp : place k owner w v = (Except.error Failure.incompatiblePlacement, w) := by
    simp [place, hun, acceptablePlacement_none ht hc]
  rw [hp]
  exact ⟨rfl, rfl, hun⟩

/-- C7 at a concrete input: a real value offered to an unplaced station
feature. -/
theorem place_rejects_incompatible_witness :
    (hasPlacement unplacedWorld).1 = false ∧
    realValue.tag ≠ stationKind.getRequiredPlacementType ∧
    (stationKind.convertToRequiredPlacementType realValue).hasRep = false ∧
    (place stationKind 5 unplacedWorld realValue).1
      = Except.error Failure.incompatiblePlacement ∧
    (place stationKind 5 unplacedWorld realValue).2 = unplacedWorld ∧
    (hasPlacement (place stationKind 5 unplacedWorld realValue).2).1 = false :=
  ⟨rfl, by decide, rfl,
    place_rejects_incompatible stationKind 5 unplacedWorld realValue rfl (by decide) rfl⟩

/-- C8: for a placed feature, whose slot holds a value, and a value that is not
of the required type and that `convertToRequiredPlacementType` turns into an
empty placement, `replace` fails and leaves the state as it was: the feature is
still placed and `getPlacement()` returns the original value. -/
theorem replace_rejects_incompatible (k : FeatureKind) (w : World) (v2 : Placement)
    (s : PlacementSlot)
    (hpl : (hasPlacement w).1 = true)
    (hs : deref w.slots w.feature.placement = some s)
    (ht : v2.tag ≠ k.getRequiredPlacementType)
    (hc : (k.convertToRequiredPlacementType v2).hasRep = false) :
    (getPlacement w).1 = Except.ok s.getPlacement ∧
    (replace k w v2).1 = Except.error Failure.incompatiblePlacement ∧
    (replace k w v2).2 = w ∧
    (hasPlacement (replace k w v2).2).1 = true ∧
    (getPlacement (replace k w v2).2).1 = Except.ok s.getPlacement := by
  have hp : replace k w v2 = (Except.error Failure.incompatiblePlacement, w) := by
    simp [replace, hpl, acceptablePlacement_none ht hc]
  have hg : (getPlacement w).1 = Except.ok s.getPlacement := by
    have hne : w.feature.placement ≠ 0 := deref_some_ne_zero hs
    simp [getPlacement, getPlacementSlot, hne, hs]
  rw [hp]
  exact ⟨hg, rfl, rfl, hpl, hg⟩

/-- C8 at a concrete input: a real value offered as a replacement to a placed
station feature. -/
theorem replace_rejects_incompatible_witness :
    (hasPlacement placedWorld).1 = true ∧
    (getPlacement placedWorld).1 = Except.ok stationValue ∧
    (replace stationKind placedWorld realValue).1
      = Except.error Failure.incompatiblePlacement ∧
    (replace stationKind placedWorld realValue).2 = placedWorld ∧
    (hasPlacement (replace stationKind placedWorld realValue).2).1 = true ∧
    (getPlacement (replace stationKind placedWorld realValue).2).1
      = Except.ok stationValue :=
  ⟨rfl,
    replace_rejects_incompatible stationKind placedWorld realValue
      { owner := 2, placement := stationValue } rfl rfl (by decide) rfl⟩

/-! ## Construction and frame properties -/

/-- C9: a freshly constructed feature, for any handle, name and slot store, is
unplaced: `hasPlacement()` is false, `getPlacementSlot()`, `updPlacementSlot()`
and `getPlacement()` fail with "Feature has no placement", and `dependsOn(f)` is
false for every feature `f`. -/
theorem fresh_feature_is_unplaced (slots : SlotStore) (p : FeatureId) (nm : String)
    (f : FeatureId) :
    (hasPlacement (freshWorld slots p nm)).1 = false ∧
    (getPlacementSlot (freshWorld slots p nm)).1 = Except.error noPlacement ∧
    (updPlacementSlot (freshWorld slots p nm)).1 = Except.error noPlacement ∧
    (getPlacement (freshWorld slots p nm)).1 = Except.error noPlacement ∧
    (dependsOn (freshWorld slots p nm) f).1 = Except.ok false :=
  ⟨rfl, rfl, rfl, rfl, rfl⟩

/-- C10: `hasPlacement()`, `getPlacementSlot()`, `getPlacement()`,
`updPlacementSlot()` and `dependsOn(f)` leave the feature's placement reference
as it was, whether they return or fail; in particular an unplaced feature on
which `getPlacementSlot()` fails is still unplaced. -/
theorem queries_keep_placement_reference (w : World) (f : FeatureId) :
    (hasPlacement w).2.feature.placement = w.feature.placement ∧
    (getPlacementSlot w).2.feature.placement = w.feature.placement ∧
    (getPlacement w).2.feature.placement = w.feature.placement ∧
    (updPlacementSlot w).2.feature.placement = w.feature.placement ∧
    (dependsOn w f).2.feature.placement = w.feature.placement ∧
    ((hasPlacement w).1 = false →
      (getPlacementSlot w).1 = Except.error noPlacement ∧
      (hasPlacement (getPlacementSlot w).2).1 = false) := by
  have h1 : (getPlacementSlot w).2 = w := by
    unfold getPlacementSlot
    split <;> rfl
  have h2 : (getPlacement w).2 = w := by
    by_cases h : w.feature.placement = 0
    · simp [getPlacement, getPlacementSlot, h]
    · cases hd : deref w.slots w.feature.placement <;>
        simp [getPlacement, getPlacementSlot, h, hd]
  have h3 : (dependsOn w f).2 = w := by
    by_cases h : w.feature.placement = 0
    · simp [dependsOn, h]
    · cases hd : deref w.slots w.feature.placement <;> simp [dependsOn, h, hd]
  refine ⟨rfl, by rw [h1], by rw [h2], by rw [updPlacementSlot, h1], by rw [h3], ?_⟩
  intro hun
  refine ⟨?_, by rw [h1]; exact hun⟩
  have h0 : w.feature.placement = 0 := (hasPlacement_false_iff w).1 hun
  simp [getPlacementSlot, h0]

end simtk
